import Mathlib

/-!
Verification of the x402-solana settlement core against its specification.

The development shallowly embeds the three on-chain programs that the
specification covers:

* `contracts/programs/shielded-pool/src/lib.rs` — pool ledger, incremental
  Merkle accumulator (`MerkleTree`), deposit and withdraw instructions;
* `contracts/programs/spend-verifier/src/lib.rs` — nullifier set, Groth16
  structural verifier, `verify_spend_proof` settlement instruction;
* `contracts/programs/zk-meta-registry/src/lib.rs` — verification-key
  registry.

Machine integers are embedded as `Nat` with explicit reduction modulo `2 ^ w`
where wrap-around matters; 32-byte values (`[u8; 32]`) are lists of byte
values; fixed-size on-chain arrays are length-20 lists accessed through
bounds-checked helpers whose out-of-range case is a distinct `panic` outcome
(Rust array indexing aborts the transaction rather than returning an error
code).  Fallible code returns `Except`.

The hash used by the tree (`poseidon_hash` in the source, which is in fact
SHA-256 over the concatenated inputs plus the domain tag `MERKLE_TREE_HASH`)
is embedded as an executable SHA-256 so that concrete roots evaluate inside
the kernel.
-/

set_option maxRecDepth 4000

namespace X402

/-- Decidable equality on `Except`, so that concrete runs of the embedded
instructions can be evaluated by `decide`. -/
instance {ε α : Type} [DecidableEq ε] [DecidableEq α] : DecidableEq (Except ε α) := fun a b =>
  match a, b with
  | .ok x, .ok y =>
      if h : x = y then .isTrue (by rw [h])
      else .isFalse (fun hc => h (by injection hc))
  | .error x, .error y =>
      if h : x = y then .isTrue (by rw [h])
      else .isFalse (fun hc => h (by injection hc))
  | .ok _, .error _ => .isFalse (fun hc => Except.noConfusion hc)
  | .error _, .ok _ => .isFalse (fun hc => Except.noConfusion hc)

/-- Bind on a successful `Except` computation. -/
@[simp] theorem exceptBind_ok {ε α β : Type} (a : α) (f : α → Except ε β) :
    (Except.ok a >>= f : Except ε β) = f a := rfl

/-- Bind on a failed `Except` computation. -/
@[simp] theorem exceptBind_error {ε α β : Type} (e : ε) (f : α → Except ε β) :
    ((Except.error e : Except ε α) >>= f) = Except.error e := rfl

/-! ## SHA-256 (FIPS 180-4), executable over byte lists -/

/-- Truncation to a 32-bit word. -/
def w32 (x : Nat) : Nat := x % 4294967296

/-- Right rotation of a 32-bit word. -/
def rotr (n x : Nat) : Nat := ((x >>> n) ||| (x <<< (32 - n))) % 4294967296

/-- Bitwise complement of a 32-bit word. -/
def not32 (x : Nat) : Nat := x ^^^ 4294967295

/-- SHA-256 `Ch` function. -/
def ch32 (x y z : Nat) : Nat := (x &&& y) ^^^ (not32 x &&& z)

/-- SHA-256 `Maj` function. -/
def maj32 (x y z : Nat) : Nat := (x &&& y) ^^^ (x &&& z) ^^^ (y &&& z)

/-- SHA-256 big sigma 0. -/
def bsig0 (x : Nat) : Nat := rotr 2 x ^^^ rotr 13 x ^^^ rotr 22 x

/-- SHA-256 big sigma 1. -/
def bsig1 (x : Nat) : Nat := rotr 6 x ^^^ rotr 11 x ^^^ rotr 25 x

/-- SHA-256 small sigma 0. -/
def ssig0 (x : Nat) : Nat := rotr 7 x ^^^ rotr 18 x ^^^ (x >>> 3)

/-- SHA-256 small sigma 1. -/
def ssig1 (x : Nat) : Nat := rotr 17 x ^^^ rotr 19 x ^^^ (x >>> 10)

/-- The 64 SHA-256 round constants. -/
def shaK : List Nat :=
  [1116352408, 1899447441, 3049323471, 3921009573, 961987163, 1508970993, 2453635748, 2870763221,
   3624381080, 310598401, 607225278, 1426881987, 1925078388, 2162078206, 2614888103, 3248222580,
   3835390401, 4022224774, 264347078, 604807628, 770255983, 1249150122, 1555081692, 1996064986,
   2554220882, 2821834349, 2952996808, 3210313671, 3336571891, 3584528711, 113926993, 338241895,
   666307205, 773529912, 1294757372, 1396182291, 1695183700, 1986661051, 2177026350, 2456956037,
   2730485921, 2820302411, 3259730800, 3345764771, 3516065817, 3600352804, 4094571909, 275423344,
   430227734, 506948616, 659060556, 883997877, 958139571, 1322822218, 1537002063, 1747873779,
   1955562222, 2024104815, 2227730452, 2361852424, 2428436474, 2756734187, 3204031479, 3329325298]

/-- The eight SHA-256 initial hash values. -/
def shaInit : List Nat :=
  [1779033703, 3144134277, 1013904242, 2773480762,
   1359893119, 2600822924, 528734635, 1541459225]

/-- Big-endian 8-byte serialization of a 64-bit value. -/
def u64be (x : Nat) : List Nat :=
  [(x >>> 56) % 256, (x >>> 48) % 256, (x >>> 40) % 256, (x >>> 32) % 256,
   (x >>> 24) % 256, (x >>> 16) % 256, (x >>> 8) % 256, x % 256]

/-- SHA-256 padding: append `128`, zero bytes, then the 64-bit big-endian bit
length, reaching a multiple of 64 bytes. -/
def shaPad (msg : List Nat) : List Nat :=
  msg ++ [128] ++ List.replicate ((119 - msg.length % 64) % 64) 0
      ++ u64be (8 * msg.length)

/-- Group a byte list into big-endian 32-bit words (the length is a multiple
of four after padding). -/
def bytesToWords : List Nat → List Nat
  | a :: b :: c :: d :: rest => (((a * 256 + b) * 256 + c) * 256 + d) :: bytesToWords rest
  | _ => []

/-- Group a word list into 16-word blocks; `cur` holds the current chunk in
reverse and `n` its size. -/
def chunks16Aux (cur : List Nat) (n : Nat) : List Nat → List (List Nat)
  | [] => if cur.isEmpty then [] else [cur.reverse]
  | x :: xs =>
      if n = 15 then ((x :: cur).reverse) :: chunks16Aux [] 0 xs
      else chunks16Aux (x :: cur) (n + 1) xs

/-- Group a word list into 16-word blocks. -/
def chunks16 (ws : List Nat) : List (List Nat) := chunks16Aux [] 0 ws

/-- Message-schedule extension: starting from the 16 block words (given in
reverse, newest first), prepend the remaining `n` words
`w[t] = ssig1 w[t-2] + w[t-7] + ssig0 w[t-15] + w[t-16]`. -/
def extendW : Nat → List Nat → List Nat
  | 0, rev => rev
  | n + 1, rev =>
      extendW n
        ((ssig1 (rev.getD 1 0) + rev.getD 6 0 + ssig0 (rev.getD 14 0) + rev.getD 15 0)
            % 4294967296 :: rev)

/-- The full 64-word message schedule of one block. -/
def schedule (block : List Nat) : List Nat := (extendW 48 block.reverse).reverse

/-- One SHA-256 round; the state is the eight working words. -/
def shaRound (st : List Nat) (kw : Nat × Nat) : List Nat :=
  match st with
  | [a, b, c, d, e, f, g, h] =>
      let t1 := (h + bsig1 e + ch32 e f g + kw.1 + kw.2) % 4294967296
      let t2 := (bsig0 a + maj32 a b c) % 4294967296
      [(t1 + t2) % 4294967296, a, b, c, (d + t1) % 4294967296, e, f, g]
  | other => other

/-- Compress one 16-word block into the running 8-word state. -/
def compressBlock (st : List Nat) (block : List Nat) : List Nat :=
  let fin := (shaK.zip (schedule block)).foldl (fun s kw => shaRound s kw.swap) st
  (st.zip fin).map (fun p => (p.1 + p.2) % 4294967296)

/-- Serialize an 8-word state to 32 bytes, big-endian. -/
def wordsToBytes : List Nat → List Nat
  | [] => []
  | w :: ws => (w >>> 24) % 256 :: (w >>> 16) % 256 :: (w >>> 8) % 256 :: w % 256 :: wordsToBytes ws

/-- SHA-256 of a byte list, as a 32-byte list. -/
def sha256 (msg : List Nat) : List Nat :=
  wordsToBytes ((chunks16 (bytesToWords (shaPad msg))).foldl compressBlock shaInit)

/-- FIPS 180-4 test vector: the hash of the three-byte message `abc`. -/
theorem sha256_vector_abc :
    sha256 [97, 98, 99] =
      [186, 120, 22, 191, 143, 1, 207, 234, 65, 65, 64, 222,
       93, 174, 34, 35, 176, 3, 97, 163, 150, 23, 122, 156,
       180, 16, 255, 97, 242, 0, 21, 173] := by
  decide

/-- SHA-256 of the empty message. -/
theorem sha256_vector_empty :
    sha256 [] =
      [227, 176, 196, 66, 152, 252, 28, 20, 154, 251, 244, 200,
       153, 111, 185, 36, 39, 174, 65, 228, 100, 155, 147, 76,
       164, 149, 153, 27, 120, 82, 184, 85] := by
  decide

/-! ## Shielded pool program (`shielded-pool/src/lib.rs`) -/

/-- A 32-byte value (`[u8; 32]` in the source). -/
abbrev Bytes32 := List Nat

/-- The all-zero 32-byte value. -/
def zero32 : Bytes32 := List.replicate 32 0

/-- The shielded-pool `ErrorCode` enum. -/
inductive PoolErr where
  | InvalidAmount
  | IndexOutOfBounds
  | InsufficientFunds
  | UnauthorizedWithdrawal
  | InvalidInput
  | HashError
  | MerkleTreeFull
  | InvalidCommitment
  | InvalidNullifier
deriving DecidableEq

/-- Outcome of a shielded-pool instruction step: either a returned Anchor
error code, or a Rust panic (array index out of bounds / arithmetic abort),
which likewise aborts the transaction but is not an `ErrorCode`. -/
inductive PoolFail where
  | panic
  | e (c : PoolErr)
deriving DecidableEq

/-- Bounds-checked array read: Rust `arr[i]` on a fixed-size array, panicking
when out of range. -/
def getArr (l : List Bytes32) (i : Nat) : Except PoolFail Bytes32 :=
  match l[i]? with
  | some v => .ok v
  | none => .error .panic

/-- Bounds-checked array write: Rust `arr[i] = v`, panicking out of range. -/
def setArr (l : List Bytes32) (i : Nat) (v : Bytes32) : Except PoolFail (List Bytes32) :=
  if i < l.length then .ok (l.set i v) else .error .panic

/-- The byte string `MERKLE_TREE_HASH` used as a domain separator. -/
def merkleDomain : List Nat :=
  [77, 69, 82, 75, 76, 69, 95, 84, 82, 69, 69, 95, 72, 65, 83, 72]

/-- The source's `poseidon_hash`: errors on an empty input list, otherwise
SHA-256 of the concatenated inputs followed by the domain separator. -/
def poseidon_hash (inputs : List Bytes32) : Except PoolFail Bytes32 :=
  if inputs.isEmpty then .error (.e .InvalidInput)
  else .ok (sha256 (inputs.flatten ++ merkleDomain))

/-- Hash of an ordered pair of nodes, the always-successful two-input case of
`poseidon_hash`. -/
def hashPair (a b : Bytes32) : Bytes32 := sha256 ((a ++ b) ++ merkleDomain)

theorem poseidon_hash_pair (a b : Bytes32) :
    poseidon_hash [a, b] = .ok (hashPair a b) := by
  simp [poseidon_hash, hashPair, List.flatten]

/-- The `MerkleTree` account state. -/
structure MerkleTree where
  height : Nat
  filled_subtrees : List Bytes32
  zeros : List Bytes32
  root : Bytes32
deriving DecidableEq

/-- A freshly created (Anchor `init`) `MerkleTree` account: all fields
zero-filled. -/
def zeroedMerkleTree : MerkleTree :=
  { height := 0
    filled_subtrees := List.replicate 20 zero32
    zeros := List.replicate 20 zero32
    root := zero32 }

/-- Loop `for i in 1..height` of `MerkleTree::initialize`, which sets
`zeros[i] = poseidon_hash(&[zeros[i-1], zeros[i-1]])`; `i` is the loop index
and `n` the number of remaining iterations. -/
def initZerosLoop : Nat → Nat → List Bytes32 → Except PoolFail (List Bytes32)
  | _, 0, z => .ok z
  | i, n + 1, z => do
      let prev ← getArr z (i - 1)
      let h ← poseidon_hash [prev, prev]
      let z' ← setArr z i h
      initZerosLoop (i + 1) n z'

/-- Loop `for i in 0..height` of `MerkleTree::initialize`, which copies
`filled_subtrees[i] = zeros[i]`. -/
def copyZerosLoop : Nat → Nat → List Bytes32 → List Bytes32 → Except PoolFail (List Bytes32)
  | _, 0, _, f => .ok f
  | i, n + 1, z, f => do
      let v ← getArr z i
      let f' ← setArr f i v
      copyZerosLoop (i + 1) n z f'

/-- `MerkleTree::initialize`: store the height, fill `zeros` level by level,
copy them into `filled_subtrees`, and set `root = zeros[height-1]`.  The
source performs no bound check on `height`: a height above 20 hits an
out-of-bounds write inside the `zeros` loop, and height 0 hits the `u8`
subtraction `height - 1` (debug: overflow abort; release: wrap to 255 and an
out-of-bounds read) — both are panics. -/
def MerkleTree.initialize (h : Nat) (mt : MerkleTree) : Except PoolFail MerkleTree := do
  let z0 ← setArr mt.zeros 0 zero32
  let z ← initZerosLoop 1 (h - 1) z0
  let f ← copyZerosLoop 0 h z mt.filled_subtrees
  if h = 0 then .error .panic
  else do
    let r ← getArr z (h - 1)
    .ok { mt with height := h, zeros := z, filled_subtrees := f, root := r }

/-- The frontier-update loop of `MerkleTree::insert_leaf` (`for level in
0..height` with an early `break` on a left child). -/
def insertLoop : Nat → Nat → Nat → Bytes32 → MerkleTree → Except PoolFail MerkleTree
  | _, 0, _, _, mt => .ok mt
  | level, n + 1, idx, cur, mt =>
      if idx % 2 = 0 then do
        let f ← setArr mt.filled_subtrees level cur
        .ok { mt with filled_subtrees := f }
      else do
        let left ← getArr mt.filled_subtrees level
        let cur' ← poseidon_hash [left, cur]
        insertLoop (level + 1) n (idx / 2) cur' mt

/-- The root-recomputation loop of `MerkleTree::compute_root` (`for level in
1..height`): the right sibling is `filled_subtrees[level]` at the topmost
level and `zeros[level]` below it. -/
def computeRootLoop (mt : MerkleTree) : Nat → Nat → Bytes32 → Except PoolFail Bytes32
  | _, 0, cur => .ok cur
  | level, n + 1, cur => do
      let right ←
        if level = mt.height - 1 then getArr mt.filled_subtrees level
        else getArr mt.zeros level
      let cur' ← poseidon_hash [cur, right]
      computeRootLoop mt (level + 1) n cur'

/-- `MerkleTree::compute_root`: fold `filled_subtrees[0]` upward. -/
def MerkleTree.compute_root (mt : MerkleTree) : Except PoolFail Bytes32 := do
  let c ← getArr mt.filled_subtrees 0
  computeRootLoop mt 1 (mt.height - 1) c

/-- `MerkleTree::insert_leaf`: bound-check the index against `1 << height`,
run the frontier update, then recompute and store the root. -/
def MerkleTree.insert_leaf (leaf_index : Nat) (leaf : Bytes32) (mt : MerkleTree) :
    Except PoolFail MerkleTree := do
  if leaf_index < 2 ^ mt.height then do
    let mt' ← insertLoop 0 mt.height leaf_index leaf mt
    let r ← mt'.compute_root
    .ok { mt' with root := r }
  else .error (.e .IndexOutOfBounds)

/-- The loop of `MerkleTree::verify_proof` (`for i in 0..height`), reading
`proof[i]` and `path_indices[i]`; indices are in bounds because both lengths
were checked to equal `height`. -/
def verifyLoop (proof : List Bytes32) (path_indices : List Bool) :
    Nat → Nat → Bytes32 → Except PoolFail Bytes32
  | _, 0, cur => .ok cur
  | i, n + 1, cur => do
      let pe := proof.getD i zero32
      let cur' ←
        if path_indices.getD i false then poseidon_hash [cur, pe]
        else poseidon_hash [pe, cur]
      verifyLoop proof path_indices (i + 1) n cur'

/-- `MerkleTree::verify_proof`: error (`InvalidInput`) on a sibling-path or
direction-bit list whose length differs from the height, otherwise fold the
leaf with each sibling (`true` bit: current value is the left operand) and
compare to the claimed root. -/
def MerkleTree.verify_proof (mt : MerkleTree) (leaf : Bytes32) (proof : List Bytes32)
    (path_indices : List Bool) (root : Bytes32) : Except PoolFail Bool := do
  if proof.length ≠ mt.height then .error (.e .InvalidInput)
  else if path_indices.length ≠ mt.height then .error (.e .InvalidInput)
  else do
    let c ← verifyLoop proof path_indices 0 mt.height leaf
    .ok (c == root)

/-- The `ShieldedPool` account state (pubkeys are opaque naturals). -/
structure ShieldedPool where
  authority : Nat
  merkle_root : Bytes32
  tree_height : Nat
  next_index : Nat
  total_deposits : Nat
deriving DecidableEq

/-- The `initialize` instruction of the shielded-pool program: it creates the
pool and Merkle-tree accounts (both zero-filled by Anchor `init`) and writes
only the pool fields; it never calls `MerkleTree::initialize`, so the tree
account keeps `height = 0`. -/
def initializeIx (authority : Nat) : ShieldedPool × MerkleTree :=
  ({ authority := authority
     merkle_root := zero32
     tree_height := 20
     next_index := 0
     total_deposits := 0 },
   zeroedMerkleTree)

/-- The `deposit` instruction: require a positive amount, transfer the tokens
(the token CPI is external and modelled as succeeding), insert the commitment
at `pool.next_index`, recompute the pool root, and bump the counters
(`u64` arithmetic, reduced modulo `2 ^ 64`). -/
def depositIx (commitment : Bytes32) (amount : Nat) (pool : ShieldedPool)
    (tree : MerkleTree) : Except PoolFail (ShieldedPool × MerkleTree) := do
  if amount > 0 then do
    let leaf_index := pool.next_index
    let tree' ← MerkleTree.insert_leaf leaf_index commitment tree
    let r ← tree'.compute_root
    .ok ({ pool with
            merkle_root := r
            next_index := (pool.next_index + 1) % 2 ^ 64
            total_deposits := (pool.total_deposits + amount) % 2 ^ 64 },
         tree')
  else .error (.e .InvalidAmount)

/-- The fixed `SPEND_VERIFIER_ID` program id (an opaque pubkey constant; its
only use in the source is an equality comparison). -/
def SPEND_VERIFIER_ID : Nat := 3235791874

/-- The `withdraw` instruction: require a positive amount, sufficient pool
balance, and that the `spend_verifier` account key equals
`SPEND_VERIFIER_ID`; then transfer out (token CPI modelled as succeeding) and
decrease `total_deposits`. -/
def withdrawIx (amount : Nat) (spendVerifierKey : Nat) (pool : ShieldedPool) :
    Except PoolFail ShieldedPool := do
  if amount > 0 then
    if pool.total_deposits ≥ amount then
      if spendVerifierKey = SPEND_VERIFIER_ID then
        .ok { pool with total_deposits := pool.total_deposits - amount }
      else .error (.e .UnauthorizedWithdrawal)
    else .error (.e .InsufficientFunds)
  else .error (.e .InvalidAmount)

/-! ## Spend verifier program (`spend-verifier/src/lib.rs`) -/

/-- The spend-verifier `ErrorCode` enum. -/
inductive SpendErr where
  | InvalidPublicInputCount
  | InvalidProof
  | InvalidMerkleRoot
  | DoubleSpend
  | NullifierSetFull
  | Unauthorized
  | VerifierPaused
  | InvalidPublicSignal
  | InvalidVerificationKey
deriving DecidableEq

/-- Failure of a spend-verifier instruction: its own error code, or an error
propagated from the shielded-pool CPI. -/
inductive SpendFail where
  | spendErr (c : SpendErr)
  | cpi (f : PoolFail)
deriving DecidableEq

/-- A BN254 G1 point, as serialized coordinates. -/
structure G1Point where
  x : Bytes32
  y : Bytes32
deriving DecidableEq

/-- A BN254 G2 point, as serialized coordinate pairs. -/
structure G2Point where
  x : Bytes32 × Bytes32
  y : Bytes32 × Bytes32
deriving DecidableEq

/-- The `VerificationKey` structure. -/
structure VerificationKey where
  alpha_g1 : G1Point
  beta_g2 : G2Point
  gamma_g2 : G2Point
  delta_g2 : G2Point
  ic : List G1Point
deriving DecidableEq

/-- A `Groth16Proof`. -/
structure Groth16Proof where
  pi_a : G1Point
  pi_b : G2Point
  pi_c : G1Point
deriving DecidableEq

/-- The all-zero G1 point. -/
def zeroG1 : G1Point := { x := zero32, y := zero32 }

/-- The all-zero G2 point. -/
def zeroG2 : G2Point := { x := (zero32, zero32), y := (zero32, zero32) }

/-- `get_spend_verification_key`: the embedded placeholder key, every
component of which is zero, with six `ic` points. -/
def get_spend_verification_key : VerificationKey :=
  { alpha_g1 := zeroG1
    beta_g2 := zeroG2
    gamma_g2 := zeroG2
    delta_g2 := zeroG2
    ic := List.replicate 6 zeroG1 }

/-- The `SpendVerifier` account state. -/
structure SpendVerifier where
  authority : Nat
  verification_key : VerificationKey
  nullifier_count : Nat
  total_verified_amount : Nat
  is_paused : Bool
deriving DecidableEq

/-- The spend-verifier `initialize` instruction: embed the placeholder key
and zero the counters (`is_paused` keeps the zero-fill of Anchor `init`,
i.e. `false`). -/
def initVerifier (authority : Nat) : SpendVerifier :=
  { authority := authority
    verification_key := get_spend_verification_key
    nullifier_count := 0
    total_verified_amount := 0
    is_paused := false }

/-- `NullifierSet::contains`: `Vec::contains` on the stored nullifiers. -/
def nsContains (ns : List Bytes32) (n : Bytes32) : Bool := ns.contains n

/-- `NullifierSet::insert`: reject a present nullifier with `DoubleSpend`,
reject a full set (1,000,000 entries) with `NullifierSetFull`, otherwise
push. -/
def nsInsert (n : Bytes32) (ns : List Bytes32) : Except SpendFail (List Bytes32) :=
  if nsContains ns n then .error (.spendErr .DoubleSpend)
  else if ns.length < 1000000 then .ok (ns ++ [n])
  else .error (.spendErr .NullifierSetFull)

/-- The BN254 scalar-field order used by `Fr::from_le_bytes_mod_order`. -/
def bn254r : Nat :=
  21888242871839275222246405745257275088548364400416034343698204186575808495617

/-- Little-endian byte-list decoding. -/
def leNat (bs : List Nat) : Nat := bs.foldr (fun b acc => b + 256 * acc) 0

/-- `Fr::from_le_bytes_mod_order`. -/
def frFromLeBytes (bs : Bytes32) : Nat := leNat bs % bn254r

/-- `groth16_verify`: require at least one `ic` point
(`InvalidVerificationKey`) and a nonzero `pi_a.x` (`InvalidProof` as an
error), then return the boolean conjunction of the structural checks
(ic-length match, nonzero proof and key points, nonempty inputs). -/
def groth16_verify (vk : VerificationKey) (proof : Groth16Proof)
    (public_signals : List Bytes32) : Except SpendFail Bool :=
  if vk.ic.length < 1 then .error (.spendErr .InvalidVerificationKey)
  else if proof.pi_a.x = zero32 then .error (.spendErr .InvalidProof)
  else
    let public_inputs := public_signals.map frFromLeBytes
    let g2_point_non_zero := proof.pi_b.x.1 ≠ zero32 ∨ proof.pi_b.x.2 ≠ zero32
    .ok (decide (vk.ic.length = public_inputs.length + 1 ∧
                 proof.pi_a.x ≠ zero32 ∧
                 g2_point_non_zero ∧
                 proof.pi_c.x ≠ zero32 ∧
                 vk.alpha_g1.x ≠ zero32 ∧
                 public_inputs.length > 0))

/-- The observable steps of a settlement, in execution order. -/
inductive Action where
  | checkedSignals
  | verifiedProof
  | checkedRoot
  | checkedNullifier
  | transferredFunds
  | insertedNullifier
  | updatedStats
deriving DecidableEq

/-- The accounts a `verify_spend_proof` call operates on.  `verifierKey` is
the pubkey of the verifier PDA account, which the instruction itself passes
as the `spend_verifier` account of the withdraw CPI. -/
structure VerifySpendCtx where
  verifier : SpendVerifier
  verifierKey : Nat
  nullifierSet : List Bytes32
  pool : ShieldedPool
deriving DecidableEq

/-- The successful result of a settlement: updated verifier, nullifier set
and pool, plus the ordered trace of performed steps. -/
structure SettleOut where
  verifier : SpendVerifier
  nullifierSet : List Bytes32
  pool : ShieldedPool
  trace : List Action
deriving DecidableEq

/-- `verify_spend_proof`: the Anchor account constraint rejects a paused
verifier first; then the instruction requires exactly five public signals,
decodes them, verifies the proof, compares the pool root to signal 0, checks
that the nullifier is unused, executes the withdraw CPI, inserts the
nullifier, and finally updates the statistics.  The trace records the steps
in this source order. -/
def verify_spend_proof (proof : Groth16Proof) (public_signals : List Bytes32)
    (ctx : VerifySpendCtx) : Except SpendFail SettleOut := do
  if ctx.verifier.is_paused then .error (.spendErr .VerifierPaused)
  else if public_signals.length ≠ 5 then .error (.spendErr .InvalidPublicInputCount)
  else do
    let merkle_root := public_signals.getD 0 zero32
    let nullifier_hash := public_signals.getD 1 zero32
    let amountBytes := (public_signals.getD 3 zero32).take 8
    if amountBytes.length ≠ 8 then .error (.spendErr .InvalidPublicSignal)
    else do
      let amount := leNat amountBytes
      let ok ← groth16_verify ctx.verifier.verification_key proof public_signals
      if ¬ ok then .error (.spendErr .InvalidProof)
      else if ctx.pool.merkle_root ≠ merkle_root then .error (.spendErr .InvalidMerkleRoot)
      else if nsContains ctx.nullifierSet nullifier_hash then .error (.spendErr .DoubleSpend)
      else do
        let pool' ←
          match withdrawIx amount ctx.verifierKey ctx.pool with
          | .ok p => .ok p
          | .error f => .error (.cpi f)
        let ns' ← nsInsert nullifier_hash ctx.nullifierSet
        let verifier' :=
          { ctx.verifier with
              nullifier_count := (ctx.verifier.nullifier_count + 1) % 2 ^ 64
              total_verified_amount := (ctx.verifier.total_verified_amount + amount) % 2 ^ 64 }
        .ok { verifier := verifier'
              nullifierSet := ns'
              pool := pool'
              trace := [.checkedSignals, .verifiedProof, .checkedRoot, .checkedNullifier,
                        .transferredFunds, .insertedNullifier, .updatedStats] }

/-! ## ZK meta registry program (`zk-meta-registry/src/lib.rs`) -/

/-- The registry `ErrorCode` enum. -/
inductive RegErr where
  | Unauthorized
  | CircuitNameTooLong
  | VersionTooLong
  | VerificationKeyTooLarge
  | EmptyVerificationKey
  | InvalidVerificationKey
deriving DecidableEq

/-- The `ZkMetaRegistry` account state. -/
structure ZkMetaRegistry where
  authority : Nat
  circuit_count : Nat
deriving DecidableEq

/-- A `VerificationKeyEntry` account (strings are byte lists; `registered_at`
is the clock timestamp). -/
structure VerificationKeyEntry where
  circuit_name : List Nat
  circuit_version : List Nat
  verification_key : List Nat
  verification_key_hash : Bytes32
  registered_at : Int
  is_active : Bool
deriving DecidableEq

/-- `register_verification_key`: authority gate, length checks, a minimum
size of 32 bytes, an all-zero rejection, then store the key together with
its SHA-256 hash, mark it active and bump `circuit_count`.  `now` stands for
`Clock::get()?.unix_timestamp`. -/
def register_verification_key (callerKey : Nat) (registry : ZkMetaRegistry)
    (circuit_name circuit_version verification_key_data : List Nat) (now : Int) :
    Except RegErr (ZkMetaRegistry × VerificationKeyEntry) :=
  if callerKey ≠ registry.authority then .error .Unauthorized
  else if circuit_name.length > 32 then .error .CircuitNameTooLong
  else if circuit_version.length > 16 then .error .VersionTooLong
  else if verification_key_data.length > 8192 then .error .VerificationKeyTooLarge
  else if verification_key_data.isEmpty then .error .EmptyVerificationKey
  else if verification_key_data.length < 32 then .error .InvalidVerificationKey
  else if verification_key_data.all (fun x => x = 0) then .error .InvalidVerificationKey
  else
    .ok ({ registry with circuit_count := (registry.circuit_count + 1) % 2 ^ 64 },
         { circuit_name := circuit_name
           circuit_version := circuit_version
           verification_key := verification_key_data
           verification_key_hash := sha256 verification_key_data
           registered_at := now
           is_active := true })

/-! ## Spec-side reference definitions -/

/-- One level of a from-scratch Merkle computation: hash adjacent pairs. -/
def specLevelUp : List Bytes32 → List Bytes32
  | a :: b :: rest => hashPair a b :: specLevelUp rest
  | other => other

/-- Iterate `specLevelUp`. -/
def specLevels : Nat → List Bytes32 → List Bytes32
  | 0, l => l
  | n + 1, l => specLevels n (specLevelUp l)

/-- Modelled from the spec: the root obtained by hashing the full `2 ^ h`-leaf
tree from scratch with the given leaves, empty slots as the all-zero leaf
(spec section 8, insertion-algorithm correctness).  Used only as the
comparison point for the incremental algorithm of the source. -/
def specFullTreeRoot (h : Nat) (leaves : List Bytes32) : Bytes32 :=
  (specLevels h (leaves ++ List.replicate (2 ^ h - leaves.length) zero32)).headD zero32

/-- The root reported by the code after initializing a fresh accumulator of
height `h` and inserting the given leaves in order at indices 0, 1, 2, …. -/
def rootAfterInserts (h : Nat) (leaves : List Bytes32) : Except PoolFail Bytes32 := do
  let t0 ← MerkleTree.initialize h zeroedMerkleTree
  let t ← (leaves.enum).foldlM (fun t li => MerkleTree.insert_leaf li.1 li.2 t) t0
  .ok t.root

/-- Fold a leaf through a sibling path, the direction bit choosing the left
operand, as the spec describes `verify_proof`. -/
def specFoldProof (leaf : Bytes32) (path : List (Bytes32 × Bool)) : Bytes32 :=
  path.foldl (fun cur sb => if sb.2 then hashPair cur sb.1 else hashPair sb.1 cur) leaf

/-- Replay a list of nullifier insertions, keeping the previous set when an
insertion fails (the failed transaction is rolled back). -/
def runInserts (ns : List Bytes32) (ops : List Bytes32) : List Bytes32 :=
  ops.foldl (fun s n => match nsInsert n s with | .ok s' => s' | .error _ => s) ns

/-! ## Shared concrete inputs -/

/-- A concrete nonzero leaf (32 bytes of `1`). -/
def leafA : Bytes32 := List.replicate 32 1

/-- A second concrete leaf (32 bytes of `2`). -/
def leafB : Bytes32 := List.replicate 32 2

/-- A G1 point with nonzero `x`. -/
def g1NonZero : G1Point := { x := List.replicate 32 1, y := zero32 }

/-- A Groth16 proof whose points pass the structural nonzero checks. -/
def proofOk : Groth16Proof :=
  { pi_a := g1NonZero
    pi_b := { x := (List.replicate 32 1, zero32), y := (zero32, zero32) }
    pi_c := g1NonZero }

/-- A verification key with nonzero `alpha_g1.x` and six `ic` points. -/
def vkOk : VerificationKey :=
  { alpha_g1 := g1NonZero
    beta_g2 := zeroG2
    gamma_g2 := zeroG2
    delta_g2 := zeroG2
    ic := List.replicate 6 zeroG1 }

/-- Five concrete public signals: root 0 (matching a fresh pool), nullifier
`3…`, recipient `4…`, amount 5 (little-endian), binder 0. -/
def signalsOk : List Bytes32 :=
  [zero32, List.replicate 32 3, List.replicate 32 4,
   5 :: List.replicate 31 0, zero32]

/-- A settlement context in which every check of `verify_spend_proof`
passes: unpaused verifier holding `vkOk`, verifier account key equal to
`SPEND_VERIFIER_ID`, empty nullifier set, pool with root 0 and balance 100. -/
def ctxOk : VerifySpendCtx :=
  { verifier :=
      { authority := 0
        verification_key := vkOk
        nullifier_count := 0
        total_verified_amount := 0
        is_paused := false }
    verifierKey := SPEND_VERIFIER_ID
    nullifierSet := []
    pool :=
      { authority := 0
        merkle_root := zero32
        tree_height := 20
        next_index := 0
        total_deposits := 100 } }

/-- The output of the successful settlement `verify_spend_proof proofOk
signalsOk ctxOk`. -/
def settleOutOk : SettleOut :=
  { verifier :=
      { authority := 0
        verification_key := vkOk
        nullifier_count := 1
        total_verified_amount := 5
        is_paused := false }
    nullifierSet := [List.replicate 32 3]
    pool :=
      { authority := 0
        merkle_root := zero32
        tree_height := 20
        next_index := 0
        total_deposits := 95 }
    trace := [.checkedSignals, .verifiedProof, .checkedRoot, .checkedNullifier,
              .transferredFunds, .insertedNullifier, .updatedStats] }

/-! ## Claim theorems -/

/-- C1: the incremental insertion algorithm does not reproduce the root of
the full tree hashed from scratch.  For height 2, after inserting `leafA` the
code reports `H(leafA, zeros[1])` — it never pairs the leaf with its level-0
sibling — while the from-scratch 4-leaf root is
`H(H(leafA, zeros[0]), zeros[1])`, and the two differ; after also inserting
`leafB` the code reports `H(leafA, H(leafA, leafB))` (stale
`filled_subtrees[0]` is used as the left operand), not the
`H(H(leafA, leafB), zeros[1])` the claim states. -/
theorem c1_incremental_root_diverges :
    rootAfterInserts 2 [leafA] = .ok (hashPair leafA (hashPair zero32 zero32)) ∧
    specFullTreeRoot 2 [leafA] = hashPair (hashPair leafA zero32) (hashPair zero32 zero32) ∧
    rootAfterInserts 2 [leafA] ≠ .ok (specFullTreeRoot 2 [leafA]) ∧
    rootAfterInserts 2 [leafA, leafB] = .ok (hashPair leafA (hashPair leafA leafB)) ∧
    rootAfterInserts 2 [leafA, leafB] ≠
      .ok (hashPair (hashPair leafA leafB) (hashPair zero32 zero32)) := by
  refine ⟨by decide, by decide, by decide, by decide, by decide⟩

/-- C7: pool initialization writes `merkle_root = 0^32` and leaves the Merkle
tree account untouched (zeroed, height 0); it never runs
`MerkleTree::initialize`.  An accumulator actually initialized at height 2
has root `zeros[1] = H(0^32, 0^32)`, which differs from the `0^32` the pool
records, so the pool ledger does not mirror an initialized accumulator's
root. -/
theorem c7_pool_root_not_accumulator_root :
    (initializeIx 7).1.merkle_root = zero32 ∧
    (initializeIx 7).2 = zeroedMerkleTree ∧
    ( MerkleTree.initialize 2 zeroedMerkleTree).map MerkleTree.root =
      .ok (hashPair zero32 zero32) ∧
    hashPair zero32 zero32 ≠ zero32 := by
  refine ⟨by decide, by decide, by decide, by decide⟩

/-- C8 counterexample: `MerkleTree::initialize` performs no bound check on
the height; at height 0 and at height 21 the code aborts with a panic
(`u8` underflow on `height - 1`, respectively an out-of-bounds write to
`zeros[20]`) instead of returning an error code. -/
theorem c8_initialize_panics_out_of_range :
    MerkleTree.initialize 0 zeroedMerkleTree = .error .panic ∧
    MerkleTree.initialize 21 zeroedMerkleTree = .error .panic := by
  refine ⟨by decide, by decide⟩

/-- C9 counterexample: with a verification key holding three `ic` points and
five public signals (so `ic count ≠ signals + 1`), `groth16_verify` returns
`Ok(false)` — surfaced by the caller as `InvalidProof` — rather than failing
with `InvalidVerificationKey`. -/
theorem c9_ic_mismatch_not_an_error :
    groth16_verify
        { alpha_g1 := g1NonZero
          beta_g2 := zeroG2
          gamma_g2 := zeroG2
          delta_g2 := zeroG2
          ic := List.replicate 3 zeroG1 }
        proofOk signalsOk = .ok false ∧
    (List.replicate 3 zeroG1).length ≠ signalsOk.length + 1 := by
  refine ⟨by decide, by decide⟩

/-- C10 counterexample: a 1-byte key (nonempty, not all zero, within the size
cap) is rejected with `InvalidVerificationKey` because of an undocumented
minimum length of 32 bytes, where the claim says registration succeeds. -/
theorem c10_short_key_rejected :
    register_verification_key 0 { authority := 0, circuit_count := 0 } [] [] [1] 0 =
      .error .InvalidVerificationKey ∧
    ([1] : List Nat).isEmpty = false ∧
    ([1] : List Nat).all (fun x => x = 0) = false ∧
    ([1] : List Nat).length ≤ 8192 := by
  refine ⟨by decide, by decide, by decide, by decide⟩

/-- C3 counterexample: a fully successful settlement executes the value
transfer (the withdraw CPI) strictly before the nullifier registration
(`NullifierSet::insert`): in the step trace of the concrete run, the
transfer sits at position 4 and the insertion at position 5, so the
nullifier is not registered before the transfer as claimed (the membership
check, position 3, does precede the transfer). -/
theorem c3_transfer_precedes_registration :
    verify_spend_proof proofOk signalsOk ctxOk = .ok settleOutOk ∧
    settleOutOk.trace.indexOf .transferredFunds = 4 ∧
    settleOutOk.trace.indexOf .insertedNullifier = 5 ∧
    settleOutOk.trace.indexOf .transferredFunds <
      settleOutOk.trace.indexOf .insertedNullifier := by
  refine ⟨by decide, by decide, by decide, by decide⟩

/-- C2: the deposit/withdraw round trip can never succeed, because the
verifier is initialized with the all-zero placeholder verification key of
`get_spend_verification_key`, whose `alpha_g1.x = 0` makes the structural
check of `groth16_verify` false for every proof; `verify_spend_proof` on an
initialized verifier therefore rejects every well-formed five-signal
submission with `InvalidProof`, and the `DoubleSpend` path is unreachable. -/
theorem c2_settlement_always_invalid_proof
    (proof : Groth16Proof) (s0 s1 s2 s3 s4 : Bytes32) (pool : ShieldedPool)
    (ns : List Bytes32) (vkey auth : Nat) (h3 : s3.length = 32) :
    verify_spend_proof proof [s0, s1, s2, s3, s4]
      { verifier := initVerifier auth, verifierKey := vkey,
        nullifierSet := ns, pool := pool } = .error (.spendErr .InvalidProof) := by
  have htake : (s3.take 8).length = 8 := by
    simp [List.length_take, h3]
  have halpha : get_spend_verification_key.alpha_g1.x = zero32 := rfl
  by_cases hpa : proof.pi_a.x = zero32
  · simp [verify_spend_proof, initVerifier, htake, groth16_verify,
      get_spend_verification_key, hpa]
  · simp [verify_spend_proof, initVerifier, htake, groth16_verify,
      get_spend_verification_key, hpa]
    intro _ _ hz
    exact absurd rfl hz

/-- C2 witness: the universal rejection theorem applied at a concrete
well-formed submission. -/
theorem c2_settlement_always_invalid_proof_witness :
    verify_spend_proof proofOk [zero32, zero32, zero32, zero32, zero32]
      { verifier := initVerifier 0, verifierKey := 0,
        nullifierSet := [], pool := (initializeIx 0).1 } =
      .error (.spendErr .InvalidProof) :=
  c2_settlement_always_invalid_proof proofOk zero32 zero32 zero32 zero32 zero32
    (initializeIx 0).1 [] 0 0 (by decide)

/-- C3 amended: in every successful settlement the nullifier membership
check precedes the value transfer, and the nullifier registration follows
the transfer (the steps of `verify_spend_proof` always occur in the fixed
source order); a rejected settlement produces only an error, so no state
change is committed. -/
theorem c3_settlement_step_order (proof : Groth16Proof) (signals : List Bytes32)
    (ctx : VerifySpendCtx) (out : SettleOut)
    (h : verify_spend_proof proof signals ctx = .ok out) :
    out.trace = [.checkedSignals, .verifiedProof, .checkedRoot, .checkedNullifier,
                 .transferredFunds, .insertedNullifier, .updatedStats] ∧
    out.trace.indexOf .checkedNullifier < out.trace.indexOf .transferredFunds ∧
    out.trace.indexOf .transferredFunds < out.trace.indexOf .insertedNullifier := by
  unfold verify_spend_proof at h
  dsimp only at h
  split at h
  · exact absurd h (by simp)
  split at h
  · exact absurd h (by simp)
  split at h
  · exact absurd h (by simp)
  cases hg : groth16_verify ctx.verifier.verification_key proof signals with
  | error e => rw [hg] at h; exact absurd h (by simp)
  | ok okb =>
    rw [hg] at h
    simp only [exceptBind_ok] at h
    split at h
    · exact absurd h (by simp)
    split at h
    · exact absurd h (by simp)
    split at h
    · exact absurd h (by simp)
    split at h
    · cases hni : nsInsert (signals.getD 1 zero32) ctx.nullifierSet with
      | error e => rw [hni] at h; exact absurd h (by simp)
      | ok ns' =>
        rw [hni] at h
        simp only [exceptBind_ok] at h
        cases h
        refine ⟨rfl, ?_, ?_⟩ <;> · dsimp only; decide
    · exact absurd h (by simp)

/-- C3 amended witness: the step-order theorem applied to the concrete
successful settlement. -/
theorem c3_settlement_step_order_witness :
    settleOutOk.trace = [.checkedSignals, .verifiedProof, .checkedRoot, .checkedNullifier,
                         .transferredFunds, .insertedNullifier, .updatedStats] ∧
    settleOutOk.trace.indexOf .checkedNullifier < settleOutOk.trace.indexOf .transferredFunds ∧
    settleOutOk.trace.indexOf .transferredFunds < settleOutOk.trace.indexOf .insertedNullifier :=
  c3_settlement_step_order proofOk signalsOk ctxOk settleOutOk (by decide)

/-- Inserting any leaf at index 0 into the zeroed (never-initialized,
height-0) tree leaves the account unchanged: the frontier loop runs zero
times and the recomputed root is `filled_subtrees[0] = 0^32`. -/
theorem insert0_zeroed (c : Bytes32) :
    MerkleTree.insert_leaf 0 c zeroedMerkleTree = .ok zeroedMerkleTree := by
  simp [MerkleTree.insert_leaf, insertLoop, MerkleTree.compute_root, computeRootLoop,
    zeroedMerkleTree, getArr]

/-- C4: pool initialization leaves the Merkle tree account at height 0 while
recording `tree_height = 20` in the pool; the first deposit (leaf index 0)
passes the `leaf_index < 2^0 = 1` bound check and succeeds, and every
deposit attempted once `next_index ≥ 1` fails with `IndexOutOfBounds`. -/
theorem c4_only_first_deposit_succeeds (auth : Nat) :
    (initializeIx auth).2.height = 0 ∧
    (initializeIx auth).1.tree_height = 20 ∧
    (∀ c a, 0 < a → ∃ p1 t1,
      depositIx c a (initializeIx auth).1 (initializeIx auth).2 = .ok (p1, t1) ∧
      p1.next_index = 1) ∧
    (∀ c a (p : ShieldedPool) (t : MerkleTree), t.height = 0 → 1 ≤ p.next_index →
      0 < a → depositIx c a p t = .error (.e .IndexOutOfBounds)) := by
  refine ⟨rfl, rfl, ?_, ?_⟩
  · intro c a ha
    refine ⟨{ authority := auth, merkle_root := zero32, tree_height := 20,
              next_index := 1, total_deposits := a % 2 ^ 64 },
            zeroedMerkleTree, ?_, rfl⟩
    have hcr : zeroedMerkleTree.compute_root = .ok zero32 := by decide
    simp only [depositIx, initializeIx]
    rw [if_pos ha, insert0_zeroed c]
    simp only [exceptBind_ok]
    rw [hcr]
    simp only [exceptBind_ok]
    norm_num
  · intro c a p t ht hn ha
    have hlt : ¬ (p.next_index < 2 ^ t.height) := by
      rw [ht]; omega
    simp [depositIx, ha, MerkleTree.insert_leaf, hlt]

/-- C4 witness: the first deposit into the freshly initialized pool
succeeds and the second fails with `IndexOutOfBounds`. -/
theorem c4_only_first_deposit_succeeds_witness :
    (∃ p1 t1, depositIx leafA 5 (initializeIx 0).1 (initializeIx 0).2 = .ok (p1, t1) ∧
      p1.next_index = 1) ∧
    depositIx leafB 5
      { authority := 0, merkle_root := zero32, tree_height := 20,
        next_index := 1, total_deposits := 5 } zeroedMerkleTree =
      .error (.e .IndexOutOfBounds) :=
  ⟨(c4_only_first_deposit_succeeds 0).2.2.1 leafA 5 (by decide),
   (c4_only_first_deposit_succeeds 0).2.2.2 leafB 5 _ _ rfl (by decide) (by decide)⟩

/-- The indexed loop of `verify_proof` computes the left-to-right fold of
the zipped sibling/direction lists. -/
theorem verifyLoop_eq_fold (proof : List Bytes32) (bits : List Bool) :
    ∀ (n i : Nat) (cur : Bytes32), proof.length = i + n → bits.length = i + n →
      verifyLoop proof bits i n cur =
        .ok (specFoldProof cur ((proof.drop i).zip (bits.drop i))) := by
  intro n
  induction n with
  | zero =>
    intro i cur hp hb
    have h1 : proof.drop i = [] := List.drop_eq_nil_of_le (by omega)
    simp [verifyLoop, specFoldProof, h1]
  | succ n ih =>
    intro i cur hp hb
    have hip : i < proof.length := by omega
    have hib : i < bits.length := by omega
    have hdp : proof.drop i = proof[i] :: proof.drop (i + 1) :=
      List.drop_eq_getElem_cons hip
    have hdb : bits.drop i = bits[i] :: bits.drop (i + 1) :=
      List.drop_eq_getElem_cons hib
    have hgp : proof.getD i zero32 = proof[i] := List.getD_eq_getElem _ _ hip
    have hgb : bits.getD i false = bits[i] := List.getD_eq_getElem _ _ hib
    simp only [verifyLoop, hgp, hgb, hdp, hdb]
    cases hbit : bits[i] with
    | false =>
      rw [if_neg (by decide), poseidon_hash_pair, exceptBind_ok,
        ih (i + 1) (hashPair proof[i] cur) (by omega) (by omega)]
      rfl
    | true =>
      rw [if_pos (by decide), poseidon_hash_pair, exceptBind_ok,
        ih (i + 1) (hashPair cur proof[i]) (by omega) (by omega)]
      rfl

/-- C6: `verify_proof` fails with an error (`InvalidInput`), not `false`,
whenever the sibling path or the direction bits have a length different from
the tree height; with matching lengths it returns `true` exactly when
folding the leaf through the path (set bit: current value on the left)
reproduces the claimed root. -/
theorem c6_verify_proof_spec (mt : MerkleTree) (leaf : Bytes32) (proof : List Bytes32)
    (bits : List Bool) (root : Bytes32) :
    ((proof.length ≠ mt.height ∨ bits.length ≠ mt.height) →
      mt.verify_proof leaf proof bits root = .error (.e .InvalidInput)) ∧
    (proof.length = mt.height → bits.length = mt.height →
      mt.verify_proof leaf proof bits root =
        .ok (specFoldProof leaf (proof.zip bits) == root)) := by
  constructor
  · intro hor
    rcases hor with h | h
    · simp [MerkleTree.verify_proof, h]
    · by_cases hp : proof.length = mt.height
      · simp [MerkleTree.verify_proof, hp, h]
      · simp [MerkleTree.verify_proof, hp]
  · intro hp hb
    have hl := verifyLoop_eq_fold proof bits mt.height 0 leaf (by omega) (by omega)
    simp only [List.drop_zero] at hl
    simp [MerkleTree.verify_proof, hp, hb, hl]

/-- C6 witness: the characterization applied to a height-0 tree with an
empty path (boolean result) and with an over-long path (error). -/
theorem c6_verify_proof_spec_witness :
    zeroedMerkleTree.verify_proof leafA [] [] zero32 =
      .ok (specFoldProof leafA ([].zip []) == zero32) ∧
    zeroedMerkleTree.verify_proof leafA [leafB] [] zero32 =
      .error (.e .InvalidInput) :=
  ⟨(c6_verify_proof_spec zeroedMerkleTree leafA [] [] zero32).2 rfl rfl,
   (c6_verify_proof_spec zeroedMerkleTree leafA [leafB] [] zero32).1 (Or.inl (by decide))⟩

/-- C5: `NullifierSet::insert` fails with `DoubleSpend` exactly when the
nullifier is already present, fails with the registry-full error at the
1,000,000-entry capacity, appends and succeeds otherwise, and consequently
no nullifier ever appears twice under any sequence of insertions. -/
theorem c5_nullifier_insert_spec :
    (∀ (ns : List Bytes32) (n : Bytes32), nsContains ns n = true →
      nsInsert n ns = .error (.spendErr .DoubleSpend)) ∧
    (∀ (ns : List Bytes32) (n : Bytes32), nsContains ns n = false → 1000000 ≤ ns.length →
      nsInsert n ns = .error (.spendErr .NullifierSetFull)) ∧
    (∀ (ns : List Bytes32) (n : Bytes32), nsContains ns n = false → ns.length < 1000000 →
      nsInsert n ns = .ok (ns ++ [n])) ∧
    (∀ (ns ops : List Bytes32), ns.Nodup → (runInserts ns ops).Nodup) := by
  refine ⟨?_, ?_, ?_, ?_⟩
  · intro ns n h
    simp [nsInsert, h]
  · intro ns n h hl
    simp only [nsInsert, h, Bool.false_eq_true, if_false]
    rw [if_neg (by omega)]
  · intro ns n h hl
    simp [nsInsert, h, hl]
  · intro ns ops h
    induction ops generalizing ns with
    | nil => simpa [runInserts] using h
    | cons op rest ih =>
      have hstep : (match nsInsert op ns with | .ok s' => s' | .error _ => ns).Nodup := by
        cases hins : nsInsert op ns with
        | error f => simpa using h
        | ok ns' =>
          have hspec : nsContains ns op = false ∧ ns' = ns ++ [op] := by
            by_cases hc : nsContains ns op = true
            · simp [nsInsert, hc] at hins
            · by_cases hlen : ns.length < 1000000
              · rw [nsInsert, if_neg hc, if_pos hlen] at hins
                exact ⟨by simpa using hc, by injection hins with h'; exact h'.symm⟩
              · rw [nsInsert, if_neg hc, if_neg hlen] at hins
                exact absurd hins (by simp)
          rcases hspec with ⟨hc, rfl⟩
          have hmem : op ∉ ns := by simpa [nsContains] using hc
          simpa [List.nodup_append, hmem] using h
      have hrw : runInserts ns (op :: rest) =
          runInserts (match nsInsert op ns with | .ok s' => s' | .error _ => ns) rest := by
        simp [runInserts]
      rw [hrw]
      exact ih _ hstep

/-- C5 witness: duplicate rejection, successful append, and dedup of a
replayed sequence, from the specification theorem. -/
theorem c5_nullifier_insert_spec_witness :
    nsInsert zero32 [zero32] = .error (.spendErr .DoubleSpend) ∧
    nsInsert leafA [] = .ok [leafA] ∧
    (runInserts [] [leafA, leafA, leafB]).Nodup :=
  ⟨c5_nullifier_insert_spec.1 [zero32] zero32 (by decide),
   c5_nullifier_insert_spec.2.2.1 [] leafA (by decide) (by decide),
   c5_nullifier_insert_spec.2.2.2 [] [leafA, leafA, leafB] List.nodup_nil⟩

/-- Array read succeeds below the length. -/
theorem getArr_ok_of_lt {l : List Bytes32} {i : Nat} (h : i < l.length) :
    getArr l i = .ok l[i] := by
  simp [getArr, List.getElem?_eq_getElem h]

/-- Array write succeeds below the length. -/
theorem setArr_ok_of_lt {l : List Bytes32} {i : Nat} (h : i < l.length) (v : Bytes32) :
    setArr l i v = .ok (l.set i v) := by
  simp [setArr, h]

/-- The `zeros` loop of `initialize` succeeds when it stays below index 20,
preserving the array length. -/
theorem initZerosLoop_ok :
    ∀ (n i : Nat) (z : List Bytes32), z.length = 20 → 1 ≤ i → i + n ≤ 20 →
      ∃ z', initZerosLoop i n z = .ok z' ∧ z'.length = 20 := by
  intro n
  induction n with
  | zero => exact fun i z hz _ _ => ⟨z, rfl, hz⟩
  | succ n ih =>
    intro i z hz h1 hle
    have hi1 : i - 1 < z.length := by omega
    have hi : i < z.length := by omega
    simp only [initZerosLoop, getArr_ok_of_lt hi1, poseidon_hash_pair,
      setArr_ok_of_lt hi, exceptBind_ok]
    exact ih (i + 1) _ (by simp [hz]) (by omega) (by omega)

/-- The `zeros` loop of `initialize` panics once it reaches index 20. -/
theorem initZerosLoop_panic :
    ∀ (n i : Nat) (z : List Bytes32), z.length = 20 → 1 ≤ i → i ≤ 20 → 20 < i + n →
      initZerosLoop i n z = .error .panic := by
  intro n
  induction n with
  | zero => intro i z hz h1 h20 hgt; omega
  | succ n ih =>
    intro i z hz h1 h20 hgt
    by_cases hi : i = 20
    · subst hi
      simp only [initZerosLoop, getArr_ok_of_lt (show 19 < z.length by omega),
        poseidon_hash_pair, exceptBind_ok, setArr]
      rw [if_neg (by omega)]
      rfl
    · simp only [initZerosLoop, getArr_ok_of_lt (show i - 1 < z.length by omega),
        poseidon_hash_pair, setArr_ok_of_lt (show i < z.length by omega), exceptBind_ok]
      exact ih (i + 1) _ (by simp [hz]) (by omega) (by omega) (by omega)

/-- The copy loop of `initialize` succeeds when the height is at most 20. -/
theorem copyZerosLoop_ok :
    ∀ (n i : Nat) (z f : List Bytes32), z.length = 20 → f.length = 20 → i + n ≤ 20 →
      ∃ f', copyZerosLoop i n z f = .ok f' ∧ f'.length = 20 := by
  intro n
  induction n with
  | zero => exact fun i z f _ hf _ => ⟨f, rfl, hf⟩
  | succ n ih =>
    intro i z f hz hf hle
    simp only [copyZerosLoop, getArr_ok_of_lt (show i < z.length by omega),
      setArr_ok_of_lt (show i < f.length by omega), exceptBind_ok]
    exact ih (i + 1) z _ hz (by simp [hf]) (by omega)

/-- C8 amended: `MerkleTree::initialize` succeeds on every height from 1 to
20, and aborts with a panic — not a returned error code — at height 0 and at
every height above 20. -/
theorem c8_initialize_range (h : Nat) (mt : MerkleTree)
    (hz : mt.zeros.length = 20) (hf : mt.filled_subtrees.length = 20) :
    (1 ≤ h ∧ h ≤ 20 → ∃ t, MerkleTree.initialize h mt = .ok t) ∧
    (h = 0 ∨ 21 ≤ h → MerkleTree.initialize h mt = .error .panic) := by
  have hset := setArr_ok_of_lt (show 0 < mt.zeros.length by omega) zero32
  constructor
  · rintro ⟨h1, h20⟩
    obtain ⟨z', hz', hzl⟩ :=
      initZerosLoop_ok (h - 1) 1 (mt.zeros.set 0 zero32) (by simp [hz]) (by omega) (by omega)
    obtain ⟨f', hf', hfl⟩ := copyZerosLoop_ok h 0 z' mt.filled_subtrees hzl hf (by omega)
    obtain ⟨r, hr⟩ : ∃ r, getArr z' (h - 1) = .ok r :=
      ⟨_, getArr_ok_of_lt (show h - 1 < z'.length by omega)⟩
    refine ⟨{ mt with height := h, zeros := z', filled_subtrees := f', root := r }, ?_⟩
    simp only [ MerkleTree.initialize, hset, exceptBind_ok, hz', hf']
    rw [if_neg (by omega)]
    simp only [hr, exceptBind_ok]
  · rintro (rfl | hge)
    · simp [ MerkleTree.initialize, hset, initZerosLoop, copyZerosLoop]
    · have hpanic :=
        initZerosLoop_panic (h - 1) 1 (mt.zeros.set 0 zero32) (by simp [hz])
          (by omega) (by omega) (by omega)
      simp [ MerkleTree.initialize, hset, hpanic]

/-- C8 amended witness: a concrete in-range initialization succeeds. -/
theorem c8_initialize_range_witness :
    ∃ t, MerkleTree.initialize 3 zeroedMerkleTree = .ok t :=
  (c8_initialize_range 3 zeroedMerkleTree (by simp [zeroedMerkleTree])
    (by simp [zeroedMerkleTree])).1 (by omega)

/-- C9 amended: `groth16_verify` fails with `InvalidVerificationKey` only
for an empty `ic`; a nonempty key whose `ic` count differs from
`signals + 1` (with a nonzero `pi_a.x`, so no earlier error fires) yields
`Ok(false)`, which the settlement path surfaces as `InvalidProof`. -/
theorem c9_groth16_ic_check (vk : VerificationKey) (proof : Groth16Proof)
    (signals : List Bytes32) :
    (vk.ic.length = 0 →
      groth16_verify vk proof signals = .error (.spendErr .InvalidVerificationKey)) ∧
    (vk.ic.length ≠ 0 → proof.pi_a.x ≠ zero32 → vk.ic.length ≠ signals.length + 1 →
      groth16_verify vk proof signals = .ok false) := by
  constructor
  · intro h0
    simp [groth16_verify, h0]
  · intro hne hpa hlen
    simp only [groth16_verify]
    rw [if_neg (by omega), if_neg hpa]
    simp only [Except.ok.injEq]
    apply decide_eq_false
    rintro ⟨h1, -⟩
    rw [List.length_map] at h1
    exact hlen h1

/-- C9 amended witness: empty `ic` errors; a three-point `ic` against five
signals returns `Ok(false)`. -/
theorem c9_groth16_ic_check_witness :
    groth16_verify
        { alpha_g1 := g1NonZero, beta_g2 := zeroG2, gamma_g2 := zeroG2,
          delta_g2 := zeroG2, ic := [] } proofOk signalsOk =
      .error (.spendErr .InvalidVerificationKey) ∧
    groth16_verify
        { alpha_g1 := g1NonZero, beta_g2 := zeroG2, gamma_g2 := zeroG2,
          delta_g2 := zeroG2, ic := List.replicate 3 zeroG1 } proofOk signalsOk =
      .ok false :=
  ⟨(c9_groth16_ic_check _ proofOk signalsOk).1 rfl,
   (c9_groth16_ic_check _ proofOk signalsOk).2 (by decide) (by decide) (by decide)⟩

/-- C10 amended: `register_verification_key` checks, in order: authority,
name length (32), version length (16), key size (8192), nonemptiness, a
minimum key length of 32 bytes, and an all-zero rejection — the last two
both under `InvalidVerificationKey` — and otherwise stores the key with its
SHA-256 hash, marks it active and bumps `circuit_count`. -/
theorem c10_register_spec (caller : Nat) (reg : ZkMetaRegistry)
    (name ver data : List Nat) (now : Int) :
    (caller ≠ reg.authority →
      register_verification_key caller reg name ver data now = .error .Unauthorized) ∧
    (caller = reg.authority → 32 < name.length →
      register_verification_key caller reg name ver data now = .error .CircuitNameTooLong) ∧
    (caller = reg.authority → name.length ≤ 32 → 16 < ver.length →
      register_verification_key caller reg name ver data now = .error .VersionTooLong) ∧
    (caller = reg.authority → name.length ≤ 32 → ver.length ≤ 16 → 8192 < data.length →
      register_verification_key caller reg name ver data now =
        .error .VerificationKeyTooLarge) ∧
    (caller = reg.authority → name.length ≤ 32 → ver.length ≤ 16 → data = [] →
      register_verification_key caller reg name ver data now =
        .error .EmptyVerificationKey) ∧
    (caller = reg.authority → name.length ≤ 32 → ver.length ≤ 16 → data ≠ [] →
      data.length < 32 →
      register_verification_key caller reg name ver data now =
        .error .InvalidVerificationKey) ∧
    (caller = reg.authority → name.length ≤ 32 → ver.length ≤ 16 → data.length ≤ 8192 →
      32 ≤ data.length → data.all (fun x => x = 0) = true →
      register_verification_key caller reg name ver data now =
        .error .InvalidVerificationKey) ∧
    (caller = reg.authority → name.length ≤ 32 → ver.length ≤ 16 → data.length ≤ 8192 →
      32 ≤ data.length → data.all (fun x => x = 0) = false →
      register_verification_key caller reg name ver data now =
        .ok ({ reg with circuit_count := (reg.circuit_count + 1) % 2 ^ 64 },
             { circuit_name := name
               circuit_version := ver
               verification_key := data
               verification_key_hash := sha256 data
               registered_at := now
               is_active := true })) := by
  refine ⟨?_, ?_, ?_, ?_, ?_, ?_, ?_, ?_⟩
  · intro h
    simp [register_verification_key, h]
  · intro h h1
    rw [register_verification_key, if_neg (by omega), if_pos (by omega)]
  · intro h h1 h2
    rw [register_verification_key, if_neg (by omega), if_neg (by omega), if_pos (by omega)]
  · intro h h1 h2 h3
    rw [register_verification_key, if_neg (by omega), if_neg (by omega), if_neg (by omega),
      if_pos (by omega)]
  · intro h h1 h2 h3
    subst h3
    rw [register_verification_key, if_neg (by omega), if_neg (by omega), if_neg (by omega),
      if_neg (by simp), if_pos (by simp)]
  · intro h h1 h2 h3 h4
    rw [register_verification_key, if_neg (by omega), if_neg (by omega), if_neg (by omega),
      if_neg (by omega), if_neg (by simpa using h3), if_pos (by omega)]
  · intro h h1 h2 h3 h4 h5
    have hne : ¬ (data.isEmpty = true) := by
      simp only [List.isEmpty_iff]
      intro he
      rw [he] at h4
      simp at h4
    rw [register_verification_key, if_neg (by omega), if_neg (by omega), if_neg (by omega),
      if_neg (by omega), if_neg hne, if_neg (by omega), if_pos h5]
  · intro h h1 h2 h3 h4 h5
    have hne : ¬ (data.isEmpty = true) := by
      simp only [List.isEmpty_iff]
      intro he
      rw [he] at h4
      simp at h4
    rw [register_verification_key, if_neg (by omega), if_neg (by omega), if_neg (by omega),
      if_neg (by omega), if_neg hne, if_neg (by omega), if_neg (by simp [h5])]

/-- C10 amended witness: a concrete 32-byte nonzero key registers
successfully with its hash stored, entry active and count bumped. -/
theorem c10_register_spec_witness :
    register_verification_key 0 { authority := 0, circuit_count := 0 }
        [] [] (List.replicate 32 1) 0 =
      .ok ({ authority := 0, circuit_count := (0 + 1) % 2 ^ 64 },
           { circuit_name := []
             circuit_version := []
             verification_key := List.replicate 32 1
             verification_key_hash := sha256 (List.replicate 32 1)
             registered_at := 0
             is_active := true }) :=
  (c10_register_spec 0 { authority := 0, circuit_count := 0 }
    [] [] (List.replicate 32 1) 0).2.2.2.2.2.2.2
    rfl (by decide) (by decide) (by decide) (by decide) (by decide)

end X402
